import Mathlib

/-!
Verification of the PulseAQI MQTT bridge message-normalization pipeline
(`mqtt_bridge.py`), shallowly embedded in Lean 4.

Python floats are modelled as exact rationals (ℚ), Python `int()` as
truncation toward zero, Python dicts decoded from JSON as association
lists with last-occurrence-wins lookup, and the exception-driven control
flow of `on_message` as an `Except`-valued function whose errors are
caught at the message boundary.
-/

set_option maxRecDepth 100000

/-- Python `int()` applied to a rational: truncation toward zero. -/
def pyInt (q : ℚ) : ℤ := if q < 0 then -⌊-q⌋ else ⌊q⌋

/-- Embedding of `calculate_aqi_pm25` (mqtt_bridge.py lines 63-79):
EPA PM2.5 breakpoint interpolation with truncation toward zero. -/
def calculate_aqi_pm25 (pm25 : ℚ) : ℤ :=
  if pm25 ≤ 12.0 then pyInt ((50 - 0) / (12.0 - 0.0) * (pm25 - 0.0) + 0)
  else if pm25 ≤ 35.4 then pyInt ((100 - 51) / (35.4 - 12.1) * (pm25 - 12.1) + 51)
  else if pm25 ≤ 55.4 then pyInt ((150 - 101) / (55.4 - 35.5) * (pm25 - 35.5) + 101)
  else if pm25 ≤ 150.4 then pyInt ((200 - 151) / (150.4 - 55.5) * (pm25 - 55.5) + 151)
  else if pm25 ≤ 250.4 then pyInt ((300 - 201) / (250.4 - 150.5) * (pm25 - 150.5) + 201)
  else pyInt ((500 - 301) / (500.4 - 250.5) * (pm25 - 250.5) + 301)

/-- Embedding of `get_aqi_category` (mqtt_bridge.py lines 81-94). -/
def get_aqi_category (aqi : ℤ) : String :=
  if aqi ≤ 50 then "Good"
  else if aqi ≤ 100 then "Moderate"
  else if aqi ≤ 150 then "Unhealthy for Sensitive Groups"
  else if aqi ≤ 200 then "Unhealthy"
  else if aqi ≤ 300 then "Very Unhealthy"
  else "Hazardous"

/-- Position of a category label in the fixed severity order. -/
def category_rank (c : String) : Nat :=
  if c = "Good" then 0
  else if c = "Moderate" then 1
  else if c = "Unhealthy for Sensitive Groups" then 2
  else if c = "Unhealthy" then 3
  else if c = "Very Unhealthy" then 4
  else 5

/-- The six fixed category labels. -/
def aqi_labels : List String :=
  ["Good", "Moderate", "Unhealthy for Sensitive Groups", "Unhealthy",
   "Very Unhealthy", "Hazardous"]

/-! JSON values as produced by Python `json.loads`, and a small
recursive-descent parser covering the JSON subset the bridge receives
(objects, arrays, strings with escapes, numbers, booleans, null). -/

inductive JVal where
  | jnull : JVal
  | jbool : Bool → JVal
  | jnum : ℚ → JVal
  | jstr : String → JVal
  | jarr : List JVal → JVal
  | jobj : List (String × JVal) → JVal

/-- Opening brace character, written via its code point. -/
def lbraceC : Char := Char.ofNat 123

/-- Closing brace character. -/
def rbraceC : Char := Char.ofNat 125

/-- Double-quote character. -/
def quoteC : Char := Char.ofNat 34

/-- Backslash character. -/
def bslashC : Char := Char.ofNat 92

/-- Opening bracket character. -/
def lbrackC : Char := Char.ofNat 91

/-- Closing bracket character. -/
def rbrackC : Char := Char.ofNat 93

/-- Whitespace as recognized by the JSON grammar and Python `str.strip`. -/
def isWsChar (c : Char) : Bool :=
  c = ' ' || c = Char.ofNat 9 || c = Char.ofNat 10 || c = Char.ofNat 13

/-- Drop leading whitespace from a character list. -/
def skipWs : List Char → List Char
  | [] => []
  | c :: cs => if isWsChar c then skipWs cs else c :: cs

/-- Python `str.strip`: drop leading and trailing whitespace. -/
def pyStrip (s : String) : String :=
  String.mk ((skipWs ((skipWs s.data).reverse)).reverse)

/-- Python `s.startswith('{')`: the first character is an opening brace. -/
def startsWithLbrace (s : String) : Bool :=
  match s.data with
  | [] => false
  | c :: _ => c = lbraceC

/-- Split off a maximal run of decimal digits. -/
def spanDigits : List Char → List Char × List Char
  | [] => ([], [])
  | c :: cs =>
    if c.isDigit then
      let p := spanDigits cs
      (c :: p.1, p.2)
    else ([], c :: cs)

/-- Numeric value of a list of decimal digits. -/
def digitsVal (ds : List Char) : Nat :=
  ds.foldl (fun a c => 10 * a + (c.toNat - 48)) 0

/-- Parse a JSON number (optional minus, integer part, optional fraction). -/
def parseNumber (cs : List Char) : Option (ℚ × List Char) :=
  let p := match cs with
    | c :: r => if c = '-' then (true, r) else (false, cs)
    | [] => (false, cs)
  match spanDigits p.2 with
  | ([], _) => none
  | (ds, rest) =>
    let ip : ℚ := (digitsVal ds : ℚ)
    match rest with
    | c :: r2 =>
      if c = '.' then
        match spanDigits r2 with
        | ([], _) => none
        | (fs, rest2) =>
          let q := ip + (digitsVal fs : ℚ) / ((10 : ℚ) ^ fs.length)
          some (if p.1 then -q else q, rest2)
      else some (if p.1 then -ip else ip, rest)
    | [] => some (if p.1 then -ip else ip, [])

/-- Resolve a JSON string escape character. -/
def escMap (c : Char) : Option Char :=
  if c = quoteC then some quoteC
  else if c = bslashC then some bslashC
  else if c = '/' then some '/'
  else if c = 'n' then some (Char.ofNat 10)
  else if c = 't' then some (Char.ofNat 9)
  else if c = 'r' then some (Char.ofNat 13)
  else if c = 'b' then some (Char.ofNat 8)
  else if c = 'f' then some (Char.ofNat 12)
  else none

/-- Parse the body of a JSON string after the opening quote. -/
def parseStrBody : List Char → List Char → Option (String × List Char)
  | _, [] => none
  | acc, c :: cs =>
    if c = quoteC then some (String.mk acc.reverse, cs)
    else if c = bslashC then
      match cs with
      | [] => none
      | e :: cs2 =>
        match escMap e with
        | some ch => parseStrBody (ch :: acc) cs2
        | none => none
    else parseStrBody (c :: acc) cs

/-- Mode of the fueled JSON parser: parse one value, the items of an
object, or the items of an array. -/
inductive PMode where
  | pval : PMode
  | pobj : List (String × JVal) → PMode
  | parrm : List JVal → PMode

/-- Fueled JSON parser core; fuel strictly decreases on every recursive
call, so the definition is structurally recursive and kernel-reducible. -/
def parseCore : Nat → PMode → List Char → Option (JVal × List Char)
  | 0, _, _ => none
  | Nat.succ fuel, PMode.pval, cs =>
    match skipWs cs with
    | [] => none
    | c :: rest =>
      if c = lbraceC then
        match skipWs rest with
        | c2 :: rest2 =>
          if c2 = rbraceC then some (JVal.jobj [], rest2)
          else parseCore fuel (PMode.pobj []) (c2 :: rest2)
        | [] => none
      else if c = lbrackC then
        match skipWs rest with
        | c2 :: rest2 =>
          if c2 = rbrackC then some (JVal.jarr [], rest2)
          else parseCore fuel (PMode.parrm []) (c2 :: rest2)
        | [] => none
      else if c = quoteC then
        match parseStrBody [] rest with
        | some p => some (JVal.jstr p.1, p.2)
        | none => none
      else if c = 't' then
        match rest with
        | 'r' :: 'u' :: 'e' :: r => some (JVal.jbool true, r)
        | _ => none
      else if c = 'f' then
        match rest with
        | 'a' :: 'l' :: 's' :: 'e' :: r => some (JVal.jbool false, r)
        | _ => none
      else if c = 'n' then
        match rest with
        | 'u' :: 'l' :: 'l' :: r => some (JVal.jnull, r)
        | _ => none
      else
        match parseNumber (c :: rest) with
        | some p => some (JVal.jnum p.1, p.2)
        | none => none
  | Nat.succ fuel, PMode.pobj acc, cs =>
    match skipWs cs with
    | [] => none
    | c :: rest =>
      if c = quoteC then
        match parseStrBody [] rest with
        | none => none
        | some kp =>
          match skipWs kp.2 with
          | [] => none
          | c2 :: rest3 =>
            if c2 = ':' then
              match parseCore fuel PMode.pval rest3 with
              | none => none
              | some vp =>
                match skipWs vp.2 with
                | [] => none
                | c3 :: rest5 =>
                  if c3 = ',' then
                    parseCore fuel (PMode.pobj (acc ++ [(kp.1, vp.1)])) rest5
                  else if c3 = rbraceC then
                    some (JVal.jobj (acc ++ [(kp.1, vp.1)]), rest5)
                  else none
            else none
      else none
  | Nat.succ fuel, PMode.parrm acc, cs =>
    match parseCore fuel PMode.pval cs with
    | none => none
    | some vp =>
      match skipWs vp.2 with
      | [] => none
      | c :: rest =>
        if c = ',' then parseCore fuel (PMode.parrm (acc ++ [vp.1])) rest
        else if c = rbrackC then some (JVal.jarr (acc ++ [vp.1]), rest)
        else none

/-- Embedding of Python `json.loads`: parse a complete JSON document,
requiring only trailing whitespace after the value. -/
def parseJson (s : String) : Option JVal :=
  match parseCore (s.length + 1) PMode.pval s.data with
  | some p => if skipWs p.2 = [] then some p.1 else none
  | none => none

/-! Data model of the decoded message views and the normalized reading. -/

/-- Air-quality metrics sub-message of a port-67 telemetry payload. -/
structure AirQualityMetrics where
  pm10_standard : ℚ
  pm25_standard : ℚ
  pm40_standard : ℚ
  pm100_standard : ℚ
  pm_voc_idx : ℚ
  pm_nox_idx : ℚ
  pm_temperature : ℚ
  pm_humidity : ℚ

/-- Telemetry protobuf message: the optional air-quality-metrics variant. -/
structure Telemetry where
  air_quality_metrics : Option AirQualityMetrics

/-- The decoded sub-message payload bytes, exposed through the three views
the bridge takes of them: emptiness, strict UTF-8 decoding, and telemetry
protobuf parsing (`none` means the corresponding decode raises). -/
structure PayloadBytes where
  isEmpty : Bool
  utf8 : Option String
  telemetry : Option Telemetry

/-- The `decoded` sub-message of a mesh packet: port number and payload. -/
structure DecodedData where
  portnum : Nat
  payload : PayloadBytes

/-- A mesh packet: the sender header attribute as the bridge reads it
(`none` models the attribute being entirely absent, `some v` the attribute
present with value `v`, including `v = 0`), and the optional decoded
sub-message (`none` models an encrypted packet). -/
structure MeshPacket where
  from_attr : Option Nat
  decoded : Option DecodedData

/-- A service envelope wrapping one mesh packet. -/
structure ServiceEnvelope where
  packet : MeshPacket

/-- One inbound MQTT payload, exposed through the two decode attempts the
bridge makes: UTF-8 text (`none` means `decode('utf-8')` raises) and
protobuf service-envelope parsing (`none` means `ParseFromString` raises). -/
structure MqttMsg where
  textView : Option String
  protoView : Option ServiceEnvelope

/-- The normalized reading handed to the sink (the InfluxDB point without
its assembly-time wall-clock timestamp). -/
structure Reading where
  node_id : JVal
  pm1 : ℚ
  pm25 : ℚ
  pm4 : ℚ
  pm10 : ℚ
  voc : ℚ
  nox : ℚ
  t : ℚ
  rh : ℚ
  aqi : ℤ
  category : String

/-- Python dict lookup for a dict built from a JSON object key/value list:
the last occurrence of a duplicated key wins. -/
def pyDictGet (kvs : List (String × JVal)) (k : String) : Option JVal :=
  kvs.foldl (fun r p => if p.1 = k then some p.2 else r) none

/-- Python `k in dict`. -/
def pyDictHas (kvs : List (String × JVal)) (k : String) : Bool :=
  (pyDictGet kvs k).isSome

/-- Python truthiness of a JSON-decoded value. -/
def jFalsy : JVal → Bool
  | JVal.jnull => true
  | JVal.jbool b => !b
  | JVal.jnum q => q = 0
  | JVal.jstr s => s.data.isEmpty
  | JVal.jarr xs => xs.isEmpty
  | JVal.jobj kvs => kvs.isEmpty

/-- Python `float(str)`: surrounding whitespace then a signed decimal. -/
def parsePyFloatStr (s : String) : Option ℚ :=
  match parseNumber (skipWs s.data) with
  | some p => if skipWs p.2 = [] then some p.1 else none
  | none => none

/-- Python `float()` applied to a JSON-decoded value; errors model the
`ValueError`/`TypeError` exceptions it raises. -/
def pyFloat (v : JVal) : Except String ℚ :=
  match v with
  | JVal.jnum q => Except.ok q
  | JVal.jbool b => Except.ok (if b then 1 else 0)
  | JVal.jstr s =>
    match parsePyFloatStr s with
    | some q => Except.ok q
    | none => Except.error "ValueError"
  | _ => Except.error "TypeError"

/-- Lower-case hex digit for a value below 16. -/
def hexDigitChar (n : Nat) : Char :=
  if n < 10 then Char.ofNat (48 + n) else Char.ofNat (87 + n)

/-- Python `f"{n:08x}"` for a 32-bit value: 8 lower-case hex digits,
zero-padded. -/
def hex8 (n : Nat) : String :=
  String.mk ((List.range 8).map (fun i => hexDigitChar (n / 16 ^ (7 - i) % 16)))

/-- Embedding of `_get_node_id_from_packet` (mqtt_bridge.py lines 137-154):
formats the sender attribute when it is present (any value, including 0)
and yields no identity only when the attribute is entirely absent. -/
def _get_node_id_from_packet (p : MeshPacket) : Option String :=
  match p.from_attr with
  | some fid => some ("!" ++ hex8 fid)
  | none => none

/-- Embedding of `_decode_telemetry_to_sensor_data` (mqtt_bridge.py lines
156-190): requires the air-quality-metrics variant, zeroes non-positive
mass/index fields and exactly-zero temperature/humidity fields. -/
def _decode_telemetry_to_sensor_data (pb : Option Telemetry) :
    Option (List (String × JVal)) :=
  match pb with
  | none => none
  | some tele =>
    match tele.air_quality_metrics with
    | none => none
    | some aq =>
      some [("pm1", JVal.jnum (if aq.pm10_standard > 0 then aq.pm10_standard else 0)),
            ("pm25", JVal.jnum (if aq.pm25_standard > 0 then aq.pm25_standard else 0)),
            ("pm4", JVal.jnum (if aq.pm40_standard > 0 then aq.pm40_standard else 0)),
            ("pm10", JVal.jnum (if aq.pm100_standard > 0 then aq.pm100_standard else 0)),
            ("voc", JVal.jnum (if aq.pm_voc_idx > 0 then aq.pm_voc_idx else 0)),
            ("nox", JVal.jnum (if aq.pm_nox_idx > 0 then aq.pm_nox_idx else 0)),
            ("t", JVal.jnum (if aq.pm_temperature ≠ 0 then aq.pm_temperature else 0)),
            ("rh", JVal.jnum (if aq.pm_humidity ≠ 0 then aq.pm_humidity else 0))]

/-- Port number for TEXT_MESSAGE_APP. -/
def TEXT_PORTNUM : Nat := 1

/-- Port number for TELEMETRY_APP. -/
def TELEMETRY_PORTNUM : Nat := 67

/-! The `on_message` pipeline (mqtt_bridge.py lines 193-320), split into
the phases the source's control flow induces. -/

/-- Outcome of the JSON-envelope branch of `on_message` (lines 200-214):
fall through to the protobuf attempt on a `JSONDecodeError`, return early
on a non-text envelope type, raise (an `AttributeError` escaping the inner
handler) on a non-dict where a dict method is called, or hand the node id
and the optional sensor mapping to the common tail. -/
inductive JsonOutcome where
  | fallthrough : JsonOutcome
  | halted : JsonOutcome
  | fault : String → JsonOutcome
  | handed : JVal → Option (List (String × JVal)) → JsonOutcome

/-- The JSON-envelope branch applied to an already-parsed payload
(mqtt_bridge.py lines 204-212). -/
def jsonEnvelope (v : JVal) : JsonOutcome :=
  match v with
  | JVal.jobj kvs =>
    match pyDictGet kvs "type" with
    | some (JVal.jstr ty) =>
      if ty = "text" then
        let nid := (pyDictGet kvs "sender").getD (JVal.jstr "unknown")
        match (pyDictGet kvs "payload").getD (JVal.jobj []) with
        | JVal.jobj pkvs =>
          match (pyDictGet pkvs "text").getD (JVal.jstr "") with
          | JVal.jstr sensor_text =>
            if startsWithLbrace sensor_text then
              match parseJson sensor_text with
              | some (JVal.jobj skvs) => JsonOutcome.handed nid (some skvs)
              | some _ => JsonOutcome.fallthrough
              | none => JsonOutcome.fallthrough
            else JsonOutcome.handed nid none
          | _ => JsonOutcome.fault "AttributeError"
        | _ => JsonOutcome.fault "AttributeError"
      else JsonOutcome.halted
    | _ => JsonOutcome.halted
  | _ => JsonOutcome.fault "AttributeError"

/-- The protobuf branch after the node-id gate (mqtt_bridge.py lines
232-286): encrypted-packet check, empty-payload check, then the port-1
text path or the port-67 telemetry path. -/
def protoWithId (e : ServiceEnvelope) (nid : String) :
    Option (JVal × List (String × JVal)) :=
  match e.packet.decoded with
  | none => none
  | some dd =>
    if dd.payload.isEmpty then none
    else if dd.portnum = TEXT_PORTNUM then
      match dd.payload.utf8 with
      | none => none
      | some text =>
        if startsWithLbrace (pyStrip text) then
          match parseJson text with
          | some (JVal.jobj skvs) => some (JVal.jstr nid, skvs)
          | _ => none
        else none
    else if dd.portnum = TELEMETRY_PORTNUM then
      match _decode_telemetry_to_sensor_data dd.payload.telemetry with
      | some sd => if sd.isEmpty then none else some (JVal.jstr nid, sd)
      | none => none
    else none

/-- The protobuf branch of `on_message` (mqtt_bridge.py lines 220-290):
a `ParseFromString` failure or any exception inside the branch is caught
locally, so the branch is total; the node-id gate (lines 227-230) drops
packets without a sender attribute. -/
def protoPhase (pv : Option ServiceEnvelope) :
    Option (JVal × List (String × JVal)) :=
  match pv with
  | none => none
  | some e =>
    match _get_node_id_from_packet e.packet with
    | none => none
    | some nid => if nid.data.isEmpty then none else protoWithId e nid

/-- The eight required sensor fields (mqtt_bridge.py line 298). -/
def required_fields : List String :=
  ["pm1", "pm25", "pm4", "pm10", "voc", "nox", "t", "rh"]

/-- The required-fields validation (mqtt_bridge.py line 299). -/
def validateFields (sd : List (String × JVal)) : Bool :=
  required_fields.all (fun k => pyDictHas sd k)

/-- AQI computation and reading assembly (mqtt_bridge.py lines 303-312):
`float(sensor_data['pm25'])`, the AQI and its category, then the point
fields, each `float(...)` conversion able to raise. -/
def computePhase (nid : JVal) (sd : List (String × JVal)) :
    Except String (Option Reading) :=
  match pyFloat ((pyDictGet sd "pm25").getD JVal.jnull) with
  | Except.error e => Except.error e
  | Except.ok pm25v =>
    let aqi := calculate_aqi_pm25 pm25v
    let category := get_aqi_category aqi
    match pyFloat ((pyDictGet sd "pm1").getD JVal.jnull) with
    | Except.error e => Except.error e
    | Except.ok pm1v =>
      match pyFloat ((pyDictGet sd "pm25").getD JVal.jnull) with
      | Except.error e => Except.error e
      | Except.ok pm25b =>
        match pyFloat ((pyDictGet sd "pm4").getD JVal.jnull) with
        | Except.error e => Except.error e
        | Except.ok pm4v =>
          match pyFloat ((pyDictGet sd "pm10").getD JVal.jnull) with
          | Except.error e => Except.error e
          | Except.ok pm10v =>
            match pyFloat ((pyDictGet sd "voc").getD JVal.jnull) with
            | Except.error e => Except.error e
            | Except.ok vocv =>
              match pyFloat ((pyDictGet sd "nox").getD JVal.jnull) with
              | Except.error e => Except.error e
              | Except.ok noxv =>
                match pyFloat ((pyDictGet sd "t").getD JVal.jnull) with
                | Except.error e => Except.error e
                | Except.ok tv =>
                  match pyFloat ((pyDictGet sd "rh").getD JVal.jnull) with
                  | Except.error e => Except.error e
                  | Except.ok rhv =>
                    Except.ok (some
                      { node_id := nid, pm1 := pm1v, pm25 := pm25b,
                        pm4 := pm4v, pm10 := pm10v, voc := vocv, nox := noxv,
                        t := tv, rh := rhv, aqi := aqi, category := category })

/-- The common tail of `on_message` (mqtt_bridge.py lines 292-315):
truthiness check on node id and sensor data, required-fields validation,
then AQI computation and assembly. -/
def tailPhase (nid : JVal) (osd : Option (List (String × JVal))) :
    Except String (Option Reading) :=
  match osd with
  | none => Except.ok none
  | some sd =>
    if jFalsy nid || sd.isEmpty then Except.ok none
    else if validateFields sd then computePhase nid sd
    else Except.ok none

/-- The body of `on_message` inside its outermost `try` (mqtt_bridge.py
lines 195-315): JSON attempt first, protobuf attempt on a decode failure,
then the common tail; an `Except.error` is an exception reaching the
outermost handler. -/
def on_message_inner (m : MqttMsg) : Except String (Option Reading) :=
  match m.textView with
  | some s =>
    match parseJson s with
    | none =>
      match protoPhase m.protoView with
      | none => Except.ok none
      | some p => tailPhase p.1 (some p.2)
    | some v =>
      match jsonEnvelope v with
      | JsonOutcome.fault e => Except.error e
      | JsonOutcome.halted => Except.ok none
      | JsonOutcome.fallthrough =>
        match protoPhase m.protoView with
        | none => Except.ok none
        | some p => tailPhase p.1 (some p.2)
      | JsonOutcome.handed nid osd => tailPhase nid osd
  | none =>
    match protoPhase m.protoView with
    | none => Except.ok none
    | some p => tailPhase p.1 (some p.2)

/-- Embedding of `on_message` (mqtt_bridge.py lines 193-320): the
outermost exception handler converts any internal fault into a dropped
message, so the handler itself is total and never propagates. -/
def on_message (m : MqttMsg) : Option Reading :=
  match on_message_inner m with
  | Except.ok r => r
  | Except.error _ => none

/-! Concrete wire payloads used by the end-to-end scenarios. -/

/-- Escape one character for inclusion in a JSON string literal. -/
def jsonEscapeChar (c : Char) : List Char :=
  if c = quoteC then [bslashC, quoteC]
  else if c = bslashC then [bslashC, bslashC]
  else [c]

/-- Quote a string as a JSON string literal (the wire form of a text
sub-message embedded in an envelope). -/
def jsonQuote (s : String) : String :=
  String.mk ([quoteC] ++ (s.data.map jsonEscapeChar).flatten ++ [quoteC])

/-- The scenario-1 sensor JSON text. -/
def c2SensorText : String :=
  "\x7b\"pm1\":3,\"pm25\":4.5,\"pm4\":5,\"pm10\":5,\"voc\":103.0,\"nox\":1.0,\"t\":24.7,\"rh\":63.8\x7d"

/-- The scenario-1 JSON envelope payload, exactly as on the wire. -/
def c2Payload : String :=
  "\x7b\"type\":\"text\",\"sender\":\"nodeA\",\"payload\":\x7b\"text\":"
    ++ jsonQuote c2SensorText ++ "\x7d\x7d"

/-- The scenario-1 inbound message: a valid-UTF-8 JSON payload. -/
def c2Msg : MqttMsg := { textView := some c2Payload, protoView := none }

/-- The reading the bridge hands to the sink for scenario 1. -/
def c2Reading : Reading :=
  { node_id := JVal.jstr "nodeA", pm1 := 3, pm25 := 4.5, pm4 := 5,
    pm10 := 5, voc := 103, nox := 1, t := 24.7, rh := 63.8,
    aqi := 18, category := "Good" }

/-- A JSON envelope of type "text" with an optional sender and a given
`payload.text` string, as `json.loads` would produce it. -/
def jsonEnvelopeOf (sender : Option String) (s : String) : JVal :=
  JVal.jobj
    ([("type", JVal.jstr "text")]
      ++ (match sender with
          | some n => [("sender", JVal.jstr n)]
          | none => [])
      ++ [("payload", JVal.jobj [("text", JVal.jstr s)])])

/-- The scenario-1 sensor mapping as decoded by `json.loads`. -/
def c2SensorKvs : List (String × JVal) :=
  [("pm1", JVal.jnum 3), ("pm25", JVal.jnum 4.5), ("pm4", JVal.jnum 5),
   ("pm10", JVal.jnum 5), ("voc", JVal.jnum 103), ("nox", JVal.jnum 1),
   ("t", JVal.jnum 24.7), ("rh", JVal.jnum 63.8)]

/-- The scenario-2 sensor JSON text (pm25 = 45). -/
def c4SensorText : String :=
  "\x7b\"pm1\":3,\"pm25\":45,\"pm4\":5,\"pm10\":50,\"voc\":103.0,\"nox\":1.0,\"t\":24.7,\"rh\":63.8\x7d"

/-- The scenario-2 binary service envelope: sender header 0xe70287b5,
port 1, UTF-8 JSON payload. -/
def c4Envelope : ServiceEnvelope :=
  { packet :=
    { from_attr := some 0xe70287b5,
      decoded := some
        { portnum := 1,
          payload := { isEmpty := false, utf8 := some c4SensorText, telemetry := none } } } }

/-- The scenario-2 inbound message: not valid UTF-8, protobuf parses. -/
def c4Msg : MqttMsg := { textView := none, protoView := some c4Envelope }

/-- The reading the bridge hands to the sink for scenario 2. -/
def c4Reading : Reading :=
  { node_id := JVal.jstr "!e70287b5", pm1 := 3, pm25 := 45, pm4 := 5,
    pm10 := 50, voc := 103, nox := 1, t := 24.7, rh := 63.8,
    aqi := 124, category := "Unhealthy for Sensitive Groups" }

/-- The sensor mapping decoded from a telemetry message carrying the
given air-quality metrics. -/
def c6sd (aq : AirQualityMetrics) : List (String × JVal) :=
  (_decode_telemetry_to_sensor_data (some { air_quality_metrics := some aq })).getD []

/-- Sample air-quality metrics with a negative mass reading, a negative
temperature, and a zero humidity. -/
def c6Aq : AirQualityMetrics :=
  { pm10_standard := -5, pm25_standard := 4, pm40_standard := 5,
    pm100_standard := 6, pm_voc_idx := 7, pm_nox_idx := 8,
    pm_temperature := -3, pm_humidity := 0 }

/-- A packet whose sender attribute is present with value 0. -/
def c3PacketZero : MeshPacket := { from_attr := some 0, decoded := none }

/-- An envelope around `c3PacketZero`. -/
def c3EnvZero : ServiceEnvelope := { packet := c3PacketZero }

/-- A packet whose sender attribute is entirely absent. -/
def c3PacketAbsent : MeshPacket := { from_attr := none, decoded := none }

/-- An envelope around `c3PacketAbsent`. -/
def c3EnvAbsent : ServiceEnvelope := { packet := c3PacketAbsent }

/-- A sensor JSON text with leading whitespace before the brace. -/
def c7SensorTextWs : String := " " ++ c2SensorText

/-- A JSON envelope whose `payload.text` has leading whitespace. -/
def c7Payload : String :=
  "\x7b\"type\":\"text\",\"sender\":\"nodeA\",\"payload\":\x7b\"text\":"
    ++ jsonQuote c7SensorTextWs ++ "\x7d\x7d"

/-- The inbound message for the C7 counterexample. -/
def c7Msg : MqttMsg := { textView := some c7Payload, protoView := none }

/-- A sensor JSON text whose pm25 value is a non-numeric string. -/
def c9SensorText : String :=
  "\x7b\"pm1\":3,\"pm25\":\"bad\",\"pm4\":5,\"pm10\":5,\"voc\":103.0,\"nox\":1.0,\"t\":24.7,\"rh\":63.8\x7d"

/-- A JSON envelope carrying the faulting sensor text. -/
def c9Payload : String :=
  "\x7b\"type\":\"text\",\"sender\":\"nodeA\",\"payload\":\x7b\"text\":"
    ++ jsonQuote c9SensorText ++ "\x7d\x7d"

/-- The inbound message whose processing raises a `ValueError` inside the
handler body. -/
def c9Msg : MqttMsg := { textView := some c9Payload, protoView := none }

/-- A sensor JSON text with a negative pm25 value. -/
def c10SensorText : String :=
  "\x7b\"pm1\":3,\"pm25\":-5,\"pm4\":5,\"pm10\":5,\"voc\":103.0,\"nox\":1.0,\"t\":24.7,\"rh\":63.8\x7d"

/-- A JSON envelope carrying the negative pm25 reading. -/
def c10Payload : String :=
  "\x7b\"type\":\"text\",\"sender\":\"nodeA\",\"payload\":\x7b\"text\":"
    ++ jsonQuote c10SensorText ++ "\x7d\x7d"

/-- The inbound message for the C10 counterexample. -/
def c10Msg : MqttMsg := { textView := some c10Payload, protoView := none }

/-- The reading handed to the sink for the negative pm25 message. -/
def c10Reading : Reading :=
  { node_id := JVal.jstr "nodeA", pm1 := 3, pm25 := -5, pm4 := 5,
    pm10 := 5, voc := 103, nox := 1, t := 24.7, rh := 63.8,
    aqi := -20, category := "Good" }

/-- A sensor mapping missing the "rh" key. -/
def c8SdMissing : List (String × JVal) :=
  [("pm1", JVal.jnum 3), ("pm25", JVal.jnum 4.5), ("pm4", JVal.jnum 5),
   ("pm10", JVal.jnum 5), ("voc", JVal.jnum 103), ("nox", JVal.jnum 1),
   ("t", JVal.jnum 24.7)]

/-! Theorems settling the claims. -/

/-- C1: on each breakpoint segment, `calculate_aqi_pm25` returns the
truncation toward zero of the linear interpolation
`(ihi - ilo) / (hi - lo_table) * (pm25 - lo_table) + ilo`, with the table
lower bounds 0, 12.1, 35.5, 55.5, 150.5, 250.5, and with the last segment
extrapolating linearly (no clamping above 500). -/
theorem calc_aqi_breakpoint_formula (x : ℚ) :
    (0 < x ∧ x ≤ 12.0 →
      calculate_aqi_pm25 x = pyInt ((50 - 0) / (12.0 - 0) * (x - 0) + 0))
  ∧ (12.0 < x ∧ x ≤ 35.4 →
      calculate_aqi_pm25 x = pyInt ((100 - 51) / (35.4 - 12.1) * (x - 12.1) + 51))
  ∧ (35.4 < x ∧ x ≤ 55.4 →
      calculate_aqi_pm25 x = pyInt ((150 - 101) / (55.4 - 35.5) * (x - 35.5) + 101))
  ∧ (55.4 < x ∧ x ≤ 150.4 →
      calculate_aqi_pm25 x = pyInt ((200 - 151) / (150.4 - 55.5) * (x - 55.5) + 151))
  ∧ (150.4 < x ∧ x ≤ 250.4 →
      calculate_aqi_pm25 x = pyInt ((300 - 201) / (250.4 - 150.5) * (x - 150.5) + 201))
  ∧ (250.4 < x →
      calculate_aqi_pm25 x = pyInt ((500 - 301) / (500.4 - 250.5) * (x - 250.5) + 301)) := by
  refine ⟨?_, ?_, ?_, ?_, ?_, ?_⟩
  · rintro ⟨h1, h2⟩
    unfold calculate_aqi_pm25
    rw [if_pos h2]
    norm_num
  · rintro ⟨h1, h2⟩
    unfold calculate_aqi_pm25
    rw [if_neg (by linarith), if_pos h2]
  · rintro ⟨h1, h2⟩
    unfold calculate_aqi_pm25
    rw [if_neg (by linarith), if_neg (by linarith), if_pos h2]
  · rintro ⟨h1, h2⟩
    unfold calculate_aqi_pm25
    rw [if_neg (by linarith), if_neg (by linarith), if_neg (by linarith), if_pos h2]
  · rintro ⟨h1, h2⟩
    unfold calculate_aqi_pm25
    rw [if_neg (by linarith), if_neg (by linarith), if_neg (by linarith),
      if_neg (by linarith), if_pos h2]
  · intro h1
    unfold calculate_aqi_pm25
    rw [if_neg (by linarith), if_neg (by linarith), if_neg (by linarith),
      if_neg (by linarith), if_neg (by linarith)]

/-- C1 witness: the third-segment formula evaluated at pm25 = 45. -/
theorem calc_aqi_breakpoint_formula_witness :
    calculate_aqi_pm25 45 = pyInt ((150 - 101) / (55.4 - 35.5) * (45 - 35.5) + 101) :=
  (calc_aqi_breakpoint_formula 45).2.2.1 ⟨by norm_num, by norm_num⟩

/-- Numeric characterization of the rank of the category assigned to an
AQI value. -/
theorem category_rank_get (a : ℤ) :
    category_rank (get_aqi_category a) =
      if a ≤ 50 then 0 else if a ≤ 100 then 1 else if a ≤ 150 then 2
      else if a ≤ 200 then 3 else if a ≤ 300 then 4 else 5 := by
  unfold get_aqi_category
  split_ifs <;> rfl

/-- C5: `get_aqi_category` is monotone in the fixed severity order,
partitions the nonnegative integers into the six bands with inclusive
upper bounds 50, 100, 150, 200, 300, and maps everything above 300 to
"Hazardous". -/
theorem aqi_category_bands (a b : ℤ) :
    (a ≤ b → category_rank (get_aqi_category a) ≤ category_rank (get_aqi_category b))
  ∧ (0 ≤ a →
      ((get_aqi_category a = "Good" ↔ a ≤ 50)
      ∧ (get_aqi_category a = "Moderate" ↔ 50 < a ∧ a ≤ 100)
      ∧ (get_aqi_category a = "Unhealthy for Sensitive Groups" ↔ 100 < a ∧ a ≤ 150)
      ∧ (get_aqi_category a = "Unhealthy" ↔ 150 < a ∧ a ≤ 200)
      ∧ (get_aqi_category a = "Very Unhealthy" ↔ 200 < a ∧ a ≤ 300)
      ∧ (get_aqi_category a = "Hazardous" ↔ 300 < a)))
  ∧ (300 < a → get_aqi_category a = "Hazardous") := by
  refine ⟨?_, ?_, ?_⟩
  · intro hab
    rw [category_rank_get, category_rank_get]
    split_ifs <;> omega
  · intro h0
    unfold get_aqi_category
    split_ifs with g1 g2 g3 g4 g5 <;>
      refine ⟨?_, ?_, ?_, ?_, ?_, ?_⟩ <;>
      constructor <;>
      intro h <;>
      first
        | rfl
        | (exact absurd h (by decide))
        | omega
  · intro h300
    unfold get_aqi_category
    rw [if_neg (by omega), if_neg (by omega), if_neg (by omega),
      if_neg (by omega), if_neg (by omega)]

/-- C5 witness: monotonicity at 42 ≤ 137, the band membership of 137, and
the unbounded Hazardous band at 350. -/
theorem aqi_category_bands_witness :
    category_rank (get_aqi_category 42) ≤ category_rank (get_aqi_category 137)
  ∧ (get_aqi_category 137 = "Unhealthy for Sensitive Groups" ↔
      (100 : ℤ) < 137 ∧ (137 : ℤ) ≤ 150)
  ∧ get_aqi_category 350 = "Hazardous" :=
  ⟨(aqi_category_bands 42 137).1 (by decide),
   (((aqi_category_bands 137 0).2.1 (by decide)).2.2.1),
   (aqi_category_bands 350 0).2.2 (by decide)⟩

unseal Rat.add Rat.mul Rat.inv Rat.sub Rat.ofScientific in
/-- C2 counterexample: at the exact scenario-1 envelope payload the AQI
handed to the sink is 18 (int(18.75) truncates), not 19 as claimed. -/
theorem c2_scenario1_aqi_not_19 :
    (on_message c2Msg).map Reading.aqi = some 18 ∧ (18 : ℤ) ≠ 19 :=
  ⟨rfl, by decide⟩

unseal Rat.add Rat.mul Rat.inv Rat.sub Rat.ofScientific in
/-- C2 amended: the scenario-1 envelope produces exactly one reading for
the sink, with identity "nodeA", aqi = 18, category "Good". -/
theorem c2_scenario1_reading : on_message c2Msg = some c2Reading := rfl

unseal Rat.add Rat.mul Rat.inv Rat.sub Rat.ofScientific in
/-- C4 counterexample: the scenario-2 binary envelope yields category
"Unhealthy for Sensitive Groups" (aqi 124), not "Moderate" as claimed. -/
theorem c4_scenario2_category_not_moderate :
    (on_message c4Msg).map Reading.category = some "Unhealthy for Sensitive Groups"
  ∧ ("Unhealthy for Sensitive Groups" : String) ≠ "Moderate" :=
  ⟨rfl, by decide⟩

unseal Rat.add Rat.mul Rat.inv Rat.sub Rat.ofScientific in
/-- C4 amended: the scenario-2 binary envelope (sender 0xe70287b5, port 1,
pm25 = 45) produces identity "!e70287b5", an AQI computed in the segment
with table bounds 35.5 to 55.4 (namely 124), and category "Unhealthy for
Sensitive Groups". -/
theorem c4_scenario2_reading :
    on_message c4Msg = some c4Reading
  ∧ calculate_aqi_pm25 45 = pyInt ((150 - 101) / (55.4 - 35.5) * (45 - 35.5) + 101) :=
  ⟨rfl, rfl⟩

unseal Rat.add Rat.mul Rat.inv Rat.sub Rat.ofScientific in
/-- C7 counterexample: a `payload.text` whose trimmed form begins with a
brace but whose raw form has leading whitespace yields no result, because
the JSON-envelope path tests `startswith` without stripping. -/
theorem c7_leading_whitespace_dropped :
    startsWithLbrace (pyStrip c7SensorTextWs) = true ∧ on_message c7Msg = none :=
  ⟨rfl, rfl⟩

/-- C7 amended: in the JSON-envelope path the nested `payload.text` string
is parsed as sensor JSON exactly when the raw (untrimmed) string begins
with a brace; otherwise the sensor data stays unset and the tail yields no
result; an absent sender defaults to "unknown". -/
theorem c7_text_brace_gate (nid s : String) (kvs : List (String × JVal)) :
    (startsWithLbrace s = false →
      jsonEnvelope (jsonEnvelopeOf (some nid) s) = JsonOutcome.handed (JVal.jstr nid) none
      ∧ jsonEnvelope (jsonEnvelopeOf none s) = JsonOutcome.handed (JVal.jstr "unknown") none
      ∧ tailPhase (JVal.jstr nid) none = Except.ok none)
  ∧ (startsWithLbrace s = true → parseJson s = some (JVal.jobj kvs) →
      jsonEnvelope (jsonEnvelopeOf (some nid) s) = JsonOutcome.handed (JVal.jstr nid) (some kvs)) := by
  have base1 : jsonEnvelope (jsonEnvelopeOf (some nid) s) =
      if startsWithLbrace s then
        (match parseJson s with
          | some (JVal.jobj skvs) => JsonOutcome.handed (JVal.jstr nid) (some skvs)
          | some _ => JsonOutcome.fallthrough
          | none => JsonOutcome.fallthrough)
      else JsonOutcome.handed (JVal.jstr nid) none := rfl
  have base2 : jsonEnvelope (jsonEnvelopeOf none s) =
      if startsWithLbrace s then
        (match parseJson s with
          | some (JVal.jobj skvs) => JsonOutcome.handed (JVal.jstr "unknown") (some skvs)
          | some _ => JsonOutcome.fallthrough
          | none => JsonOutcome.fallthrough)
      else JsonOutcome.handed (JVal.jstr "unknown") none := rfl
  constructor
  · intro hs
    rw [base1, base2, hs]
    exact ⟨rfl, rfl, rfl⟩
  · intro hs hp
    rw [base1, hs, hp]
    rfl

unseal Rat.add Rat.mul Rat.inv Rat.sub Rat.ofScientific in
/-- C7 witness: a non-brace text yields no sensor data, and the
scenario-1 sensor text is parsed into its mapping. -/
theorem c7_text_brace_gate_witness :
    jsonEnvelope (jsonEnvelopeOf (some "nodeA") "x")
      = JsonOutcome.handed (JVal.jstr "nodeA") none
  ∧ jsonEnvelope (jsonEnvelopeOf (some "nodeA") c2SensorText)
      = JsonOutcome.handed (JVal.jstr "nodeA") (some c2SensorKvs) :=
  ⟨((c7_text_brace_gate "nodeA" "x" []).1 rfl).1,
   (c7_text_brace_gate "nodeA" c2SensorText c2SensorKvs).2 rfl rfl⟩

/-- C9: any internal fault raised while processing one message is caught
at the message boundary and converted to a dropped message, so the handler
never propagates an exception. -/
theorem c9_fault_containment (m : MqttMsg) (e : String)
    (h : on_message_inner m = Except.error e) : on_message m = none := by
  unfold on_message
  rw [h]

unseal Rat.add Rat.mul Rat.inv Rat.sub Rat.ofScientific in
/-- C9 witness: a message whose pm25 field is a non-numeric string raises
a `ValueError` inside the handler body, and the handler drops it. -/
theorem c9_fault_containment_witness :
    on_message_inner c9Msg = Except.error "ValueError" ∧ on_message c9Msg = none :=
  ⟨rfl, c9_fault_containment c9Msg "ValueError" rfl⟩

/-- C3: a sender header attribute present with value 0 decodes to the
valid identity "!00000000" and processing continues past the identity
gate, while an entirely absent sender attribute yields no identity and
the message is dropped with no result. -/
theorem c3_sender_zero_vs_absent (p : MeshPacket) (e : ServiceEnvelope) :
    (p.from_attr = some 0 →
      _get_node_id_from_packet p = some "!00000000"
      ∧ (e.packet = p → protoPhase (some e) = protoWithId e "!00000000"))
  ∧ (p.from_attr = none →
      _get_node_id_from_packet p = none
      ∧ (e.packet = p → protoPhase (some e) = none)) := by
  constructor
  · intro h
    have hid : _get_node_id_from_packet p = some "!00000000" := by
      unfold _get_node_id_from_packet
      rw [h]
      rfl
    refine ⟨hid, ?_⟩
    intro he
    subst he
    simp only [protoPhase, hid]
    rfl
  · intro h
    have hid : _get_node_id_from_packet p = none := by
      unfold _get_node_id_from_packet
      rw [h]
    refine ⟨hid, ?_⟩
    intro he
    subst he
    simp only [protoPhase, hid]

/-- C3 witness: the two cases at concrete packets. -/
theorem c3_sender_zero_vs_absent_witness :
    _get_node_id_from_packet c3PacketZero = some "!00000000"
  ∧ protoPhase (some c3EnvZero) = protoWithId c3EnvZero "!00000000"
  ∧ _get_node_id_from_packet c3PacketAbsent = none
  ∧ protoPhase (some c3EnvAbsent) = none :=
  ⟨((c3_sender_zero_vs_absent c3PacketZero c3EnvZero).1 rfl).1,
   ((c3_sender_zero_vs_absent c3PacketZero c3EnvZero).1 rfl).2 rfl,
   ((c3_sender_zero_vs_absent c3PacketAbsent c3EnvAbsent).2 rfl).1,
   ((c3_sender_zero_vs_absent c3PacketAbsent c3EnvAbsent).2 rfl).2 rfl⟩

/-- C6: for a telemetry message carrying air-quality metrics, the decode
never fails and the mapping is complete; each mass-concentration and index
field at or below zero is normalized to 0 while strictly positive values
pass through; temperature and humidity are replaced by 0 only when exactly
zero and pass through unchanged otherwise, including negative values. -/
theorem c6_telemetry_zeroing (aq : AirQualityMetrics) :
    _decode_telemetry_to_sensor_data (some { air_quality_metrics := some aq }) = some (c6sd aq)
  ∧ validateFields (c6sd aq) = true
  ∧ (aq.pm10_standard ≤ 0 → pyDictGet (c6sd aq) "pm1" = some (JVal.jnum 0))
  ∧ (0 < aq.pm10_standard → pyDictGet (c6sd aq) "pm1" = some (JVal.jnum aq.pm10_standard))
  ∧ (aq.pm25_standard ≤ 0 → pyDictGet (c6sd aq) "pm25" = some (JVal.jnum 0))
  ∧ (0 < aq.pm25_standard → pyDictGet (c6sd aq) "pm25" = some (JVal.jnum aq.pm25_standard))
  ∧ (aq.pm40_standard ≤ 0 → pyDictGet (c6sd aq) "pm4" = some (JVal.jnum 0))
  ∧ (0 < aq.pm40_standard → pyDictGet (c6sd aq) "pm4" = some (JVal.jnum aq.pm40_standard))
  ∧ (aq.pm100_standard ≤ 0 → pyDictGet (c6sd aq) "pm10" = some (JVal.jnum 0))
  ∧ (0 < aq.pm100_standard → pyDictGet (c6sd aq) "pm10" = some (JVal.jnum aq.pm100_standard))
  ∧ (aq.pm_voc_idx ≤ 0 → pyDictGet (c6sd aq) "voc" = some (JVal.jnum 0))
  ∧ (0 < aq.pm_voc_idx → pyDictGet (c6sd aq) "voc" = some (JVal.jnum aq.pm_voc_idx))
  ∧ (aq.pm_nox_idx ≤ 0 → pyDictGet (c6sd aq) "nox" = some (JVal.jnum 0))
  ∧ (0 < aq.pm_nox_idx → pyDictGet (c6sd aq) "nox" = some (JVal.jnum aq.pm_nox_idx))
  ∧ (aq.pm_temperature = 0 → pyDictGet (c6sd aq) "t" = some (JVal.jnum 0))
  ∧ (aq.pm_temperature ≠ 0 → pyDictGet (c6sd aq) "t" = some (JVal.jnum aq.pm_temperature))
  ∧ (aq.pm_humidity = 0 → pyDictGet (c6sd aq) "rh" = some (JVal.jnum 0))
  ∧ (aq.pm_humidity ≠ 0 → pyDictGet (c6sd aq) "rh" = some (JVal.jnum aq.pm_humidity)) := by
  have e1 : pyDictGet (c6sd aq) "pm1"
      = some (JVal.jnum (if aq.pm10_standard > 0 then aq.pm10_standard else 0)) := rfl
  have e2 : pyDictGet (c6sd aq) "pm25"
      = some (JVal.jnum (if aq.pm25_standard > 0 then aq.pm25_standard else 0)) := rfl
  have e3 : pyDictGet (c6sd aq) "pm4"
      = some (JVal.jnum (if aq.pm40_standard > 0 then aq.pm40_standard else 0)) := rfl
  have e4 : pyDictGet (c6sd aq) "pm10"
      = some (JVal.jnum (if aq.pm100_standard > 0 then aq.pm100_standard else 0)) := rfl
  have e5 : pyDictGet (c6sd aq) "voc"
      = some (JVal.jnum (if aq.pm_voc_idx > 0 then aq.pm_voc_idx else 0)) := rfl
  have e6 : pyDictGet (c6sd aq) "nox"
      = some (JVal.jnum (if aq.pm_nox_idx > 0 then aq.pm_nox_idx else 0)) := rfl
  have e7 : pyDictGet (c6sd aq) "t"
      = some (JVal.jnum (if aq.pm_temperature ≠ 0 then aq.pm_temperature else 0)) := rfl
  have e8 : pyDictGet (c6sd aq) "rh"
      = some (JVal.jnum (if aq.pm_humidity ≠ 0 then aq.pm_humidity else 0)) := rfl
  exact ⟨rfl, rfl,
    fun h => by rw [e1, if_neg (not_lt.mpr h)],
    fun h => by rw [e1, if_pos h],
    fun h => by rw [e2, if_neg (not_lt.mpr h)],
    fun h => by rw [e2, if_pos h],
    fun h => by rw [e3, if_neg (not_lt.mpr h)],
    fun h => by rw [e3, if_pos h],
    fun h => by rw [e4, if_neg (not_lt.mpr h)],
    fun h => by rw [e4, if_pos h],
    fun h => by rw [e5, if_neg (not_lt.mpr h)],
    fun h => by rw [e5, if_pos h],
    fun h => by rw [e6, if_neg (not_lt.mpr h)],
    fun h => by rw [e6, if_pos h],
    fun h => by rw [e7, if_neg (by simp [h])],
    fun h => by rw [e7, if_pos h],
    fun h => by rw [e8, if_neg (by simp [h])],
    fun h => by rw [e8, if_pos h]⟩

/-- C6 witness: metrics with a negative mass reading (zeroed), a positive
mass reading (kept), a negative temperature (kept), and a zero humidity. -/
theorem c6_telemetry_zeroing_witness :
    pyDictGet (c6sd c6Aq) "pm1" = some (JVal.jnum 0)
  ∧ pyDictGet (c6sd c6Aq) "pm25" = some (JVal.jnum c6Aq.pm25_standard)
  ∧ pyDictGet (c6sd c6Aq) "t" = some (JVal.jnum c6Aq.pm_temperature)
  ∧ pyDictGet (c6sd c6Aq) "rh" = some (JVal.jnum 0) := by
  obtain ⟨a1, a2, b1, b2, b3, b4, b5, b6, b7, b8, b9, b10, b11, b12, t1, t2, h1, h2⟩ :=
    c6_telemetry_zeroing c6Aq
  exact ⟨b1 (by decide), b4 (by decide), t2 (by decide), h1 (by decide)⟩

/-- C8: for each of the eight required keys, a decoded mapping missing
that key yields no result from the tail of the pipeline; when all eight
keys are present, validation passes and, for a truthy node identity,
processing continues into the AQI computation phase. -/
theorem c8_required_field_validation (nid : JVal) (sd : List (String × JVal)) :
    (∀ k ∈ required_fields, pyDictGet sd k = none →
        tailPhase nid (some sd) = Except.ok none)
  ∧ ((∀ k ∈ required_fields, (pyDictGet sd k).isSome = true) →
        validateFields sd = true
        ∧ (jFalsy nid = false → tailPhase nid (some sd) = computePhase nid sd)) := by
  constructor
  · intro k hk hmiss
    have hv : validateFields sd = false := by
      cases hvv : validateFields sd
      · rfl
      · exfalso
        have hall := List.all_eq_true.mp hvv k hk
        simp [pyDictHas, hmiss] at hall
    simp [tailPhase, hv]
  · intro hall
    have hv : validateFields sd = true := by
      simp only [validateFields, List.all_eq_true]
      intro k hk
      simpa [pyDictHas] using hall k hk
    refine ⟨hv, ?_⟩
    intro hf
    have hne : sd.isEmpty = false := by
      cases sd with
      | nil =>
        have h1 := hall "pm1" (by simp [required_fields])
        simp [pyDictGet] at h1
      | cons a l => rfl
    simp [tailPhase, hf, hne, hv]

unseal Rat.add Rat.mul Rat.inv Rat.sub Rat.ofScientific in
/-- C8 witness: dropping the mapping that misses "rh", and passing the
complete scenario-1 mapping through to the computation phase. -/
theorem c8_required_field_validation_witness :
    tailPhase (JVal.jstr "nodeA") (some c8SdMissing) = Except.ok none
  ∧ validateFields c2SensorKvs = true
  ∧ tailPhase (JVal.jstr "nodeA") (some c2SensorKvs)
      = computePhase (JVal.jstr "nodeA") c2SensorKvs := by
  have h1 := c8_required_field_validation (JVal.jstr "nodeA") c8SdMissing
  have h2 := c8_required_field_validation (JVal.jstr "nodeA") c2SensorKvs
  refine ⟨h1.1 "rh" (by simp [required_fields]) rfl, (h2.2 ?_).1, ((h2.2 ?_).2) rfl⟩
  · intro k hk
    fin_cases hk <;> rfl
  · intro k hk
    fin_cases hk <;> rfl

/-- The category function only ever returns one of the six labels. -/
theorem get_aqi_category_mem (a : ℤ) : get_aqi_category a ∈ aqi_labels := by
  unfold get_aqi_category aqi_labels
  split_ifs <;> simp

/-- Truncation toward zero of a nonnegative rational is nonnegative. -/
theorem pyInt_nonneg (q : ℚ) (h : 0 ≤ q) : 0 ≤ pyInt q := by
  unfold pyInt
  rw [if_neg (not_lt.mpr h)]
  exact Int.le_floor.mpr (by exact_mod_cast h)

/-- The AQI of a nonnegative pm25 value is nonnegative. -/
theorem calc_aqi_nonneg (q : ℚ) (h : 0 ≤ q) : 0 ≤ calculate_aqi_pm25 q := by
  unfold calculate_aqi_pm25
  split_ifs with g1 g2 g3 g4 g5 <;> apply pyInt_nonneg <;> linarith

/-- Any reading produced by the computation phase stores the AQI computed
from its own pm25 field and the category computed from that AQI. -/
theorem computePhase_ok (nid : JVal) (sd : List (String × JVal)) (r : Reading)
    (h : computePhase nid sd = Except.ok (some r)) :
    r.aqi = calculate_aqi_pm25 r.pm25 ∧ r.category = get_aqi_category r.aqi := by
  simp only [computePhase] at h
  repeat' split at h
  all_goals try simp_all
  all_goals (rw [← h]; exact ⟨rfl, rfl⟩)

/-- Any reading produced by the tail phase comes from the computation
phase. -/
theorem tailPhase_some (nid : JVal) (osd : Option (List (String × JVal))) (r : Reading)
    (h : tailPhase nid osd = Except.ok (some r)) :
    ∃ sd, computePhase nid sd = Except.ok (some r) := by
  cases osd with
  | none => simp [tailPhase] at h
  | some sd =>
    simp only [tailPhase] at h
    split_ifs at h
    · simp at h
    · exact ⟨sd, h⟩
    · simp at h

/-- Any reading produced by the handler body comes from the computation
phase. -/
theorem on_message_inner_some (m : MqttMsg) (r : Reading)
    (h : on_message_inner m = Except.ok (some r)) :
    ∃ nid sd, computePhase nid sd = Except.ok (some r) := by
  simp only [on_message_inner] at h
  repeat' split at h
  all_goals first
    | (exact ⟨_, tailPhase_some _ _ _ h⟩)
    | simp_all

/-- Any reading handed to the sink comes from the computation phase. -/
theorem on_message_some (m : MqttMsg) (r : Reading) (h : on_message m = some r) :
    ∃ nid sd, computePhase nid sd = Except.ok (some r) := by
  unfold on_message at h
  split at h
  · next r0 heq =>
      subst h
      exact on_message_inner_some m r heq
  · simp_all

unseal Rat.add Rat.mul Rat.inv Rat.sub Rat.ofScientific in
/-- C10 counterexample: a validated message with pm25 = -5 reaches the
sink with a negative AQI of -20, so the AQI stored in a sink-handed record
is not always in the 0-500+ range. -/
theorem c10_negative_aqi_reaches_sink :
    on_message c10Msg = some c10Reading
  ∧ c10Reading.aqi = -20 ∧ c10Reading.aqi < 0 :=
  ⟨rfl, rfl, by decide⟩

/-- C10 amended: every reading handed to the sink stores the AQI computed
from its validated pm25 and a category drawn from the six fixed labels;
the AQI is nonnegative whenever the validated pm25 is nonnegative (but can
be negative for negative pm25, since no range validation is applied). -/
theorem c10_reading_invariants (m : MqttMsg) (r : Reading)
    (h : on_message m = some r) :
    r.aqi = calculate_aqi_pm25 r.pm25
  ∧ r.category = get_aqi_category r.aqi
  ∧ r.category ∈ aqi_labels
  ∧ (0 ≤ r.pm25 → 0 ≤ r.aqi) := by
  obtain ⟨nid, sd, hc⟩ := on_message_some m r h
  obtain ⟨h1, h2⟩ := computePhase_ok nid sd r hc
  refine ⟨h1, h2, ?_, ?_⟩
  · rw [h2]
    exact get_aqi_category_mem r.aqi
  · intro hq
    rw [h1]
    exact calc_aqi_nonneg r.pm25 hq

unseal Rat.add Rat.mul Rat.inv Rat.sub Rat.ofScientific in
/-- C10 witness: the invariants instantiated at the concrete negative-pm25
reading that the pipeline hands to the sink. -/
theorem c10_reading_invariants_witness :
    c10Reading.aqi = calculate_aqi_pm25 c10Reading.pm25
  ∧ c10Reading.category = get_aqi_category c10Reading.aqi
  ∧ c10Reading.category ∈ aqi_labels
  ∧ (0 ≤ c10Reading.pm25 → 0 ≤ c10Reading.aqi) :=
  c10_reading_invariants c10Msg c10Reading rfl
